import Mathlib

/-!
Formal model of the proposal-analyzer service (`src/main.py`), a FastAPI
endpoint that compares an RFP document against a proposal document through a
retrieval-augmented two-stage language-model pipeline.

Modelling conventions:
* Machine-external services (PDF parsing, the Azure embedding service, the
  Azure chat-completion service, the langchain JSON extraction from raw model
  text) are oracles: explicit function parameters collected in `Env`.
* Python exceptions are the inductive `Exc`; the try/except
  ladder of the endpoint (`src/main.py` lines 177-182) is `handleException`.
* JSON values are the inductive `Json`; Python objects that may or may not
  support a `.dict()` method are `PyObject`.
* Components whose implementation lives outside this repository (the
  langchain text splitter, FAISS similarity search) are modelled from the
  spec where noted in their doc comments.
-/

/-- A JSON value, as produced by the Python json decoding: objects are ordered
association lists of string keys. -/
inductive Json where
  | null : Json
  | bool (b : Bool) : Json
  | num (n : Int) : Json
  | str (s : String) : Json
  | arr (elems : List Json) : Json
  | obj (fields : List (String × Json)) : Json

/-- The Python runtime type name of a decoded JSON value, as it appears in
an AttributeError message. -/
def Json.pyTypeName : Json → String
  | .null => "NoneType"
  | .bool _ => "bool"
  | .num _ => "int"
  | .str _ => "str"
  | .arr _ => "list"
  | .obj _ => "dict"

/-- The Python exceptions that can reach the try/except ladder of the endpoint,
keyed by the classes that ladder distinguishes. `outputParserException` is
the langchain OutputParserException, which subclasses ValueError; every other
library failure (pypdf parse errors, openai client errors, faiss errors) is
a plain Exception subclass and lands in `otherError`. -/
inductive Exc where
  | fileNotFoundError (msg : String) : Exc
  | valueError (msg : String) : Exc
  | outputParserException (msg : String) (llmOutput : String) : Exc
  | attributeError (msg : String) : Exc
  | otherError (msg : String) : Exc
deriving DecidableEq

/-- Python `str(e)` for the exceptions above. -/
def Exc.message : Exc → String
  | .fileNotFoundError m => m
  | .valueError m => m
  | .outputParserException m _ => m
  | .attributeError m => m
  | .otherError m => m

/-- A Python object as it flows out of a langchain output parser: either the
plain dicts/lists/scalars that json decoding yields, or a pydantic BaseModel
instance. Only the latter supports the `.dict()` method. -/
inductive PyObject where
  | json (j : Json) : PyObject
  | pydanticModel (j : Json) : PyObject

/-- Python attribute access `x.dict()` as invoked on line 176 of
`src/main.py`: a pydantic BaseModel serialises itself, while a plain decoded
JSON value (dict, list, str, ...) has no such attribute and raises
AttributeError naming its runtime type. -/
def PyObject.dictMethod : PyObject → Except Exc Json
  | .pydanticModel j => .ok j
  | .json j => .error (.attributeError (j.pyTypeName ++ " object has no attribute dict"))

/-- Outcome of the endpoint as seen by the HTTP caller: a JSONResponse with
a status code, or an HTTPException with a status code and a detail string. -/
inductive HttpResult where
  | ok (status : Nat) (content : Json) : HttpResult
  | httpError (status : Nat) (detail : String) : HttpResult

/-- The `except` ladder of the `analyze` endpoint (`src/main.py` lines
177-182): FileNotFoundError maps to 404 with a fixed detail, ValueError (and
its subclass OutputParserException) to 400 with `str(e)`, and every other
exception to a generic 500 wrapping `str(e)`. -/
def handleException : Exc → HttpResult
  | .fileNotFoundError _ => .httpError 404 "File not found"
  | .valueError m => .httpError 400 m
  | .outputParserException m _ => .httpError 400 m
  | e => .httpError 500 ("An unexpected error occurred: " ++ e.message)

/-- The five abstract error kinds of the error-handling design (spec section 7). -/
inductive ErrKind where
  | configError : ErrKind
  | inputError : ErrKind
  | dependencyError : ErrKind
  | notFoundError : ErrKind
  | schemaValidationError : ErrKind
deriving DecidableEq

/-- Modelled from the spec: the transport-level response each of the five
abstract error kinds of section 7 produces in this program. A config error is
answered before the `try` block with a fixed 500 detail (lines 150-151). The
other kinds reach `handleException` as the Python exception class each one
raises here: an unparseable/empty document raises a pypdf error (a plain
Exception), a failed embedding or completion call raises an openai client
error (a plain Exception), a query against a missing index location raises a
plain faiss RuntimeError (exactly as `load_vector_db` models it below with
`otherError`), and a schema/parse failure raises the langchain
OutputParserException (a ValueError subclass) whose message embeds the raw
model output. -/
def surfacedResponse : ErrKind → String → HttpResult
  | .configError, _ => .httpError 500 "Azure OpenAI settings are not properly configured"
  | .inputError, m => handleException (.otherError m)
  | .dependencyError, m => handleException (.otherError m)
  | .notFoundError, m => handleException (.otherError m)
  | .schemaValidationError, m =>
      handleException (.outputParserException ("Invalid json output: " ++ m) m)

/-- A request to the AzureChatOpenAI completion service: the client is
constructed with a temperature (0 at both call sites) and invoked on one
prompt string. -/
structure LlmRequest where
  temperature : Nat
  prompt : String

/-- The format-instructions string that `JsonOutputParser.get_format_instructions()`
generates from the pydantic schema (line 135 of `src/main.py`). It is a
library-generated constant whose exact content no claim depends on; it is
kept abstract as a fixed string. -/
def format_instructions : String := "FORMAT INSTRUCTIONS"

/-- The criteria-extraction prompt of `genrating_eligbility` (lines 75-83 of
`src/main.py`): the fixed template with `rfp_text` substituted. -/
def extractPrompt (rfp_text : String) : String :=
  "\n  You are an AI contract analyzer. Your task is to Find all the eligibility criteria listed in a Request for Proposal (RFP).\n\n  RFP Content:\n  "
    ++ rfp_text ++ "\n\n  "

/-- The comparison prompt of `analyze_eligibility` (lines 113-136 of
`src/main.py`): the fixed template with `rfp_content`, `proposal_content`
and the parser format instructions substituted. -/
def comparePrompt (rfp_content proposal_content : String) : String :=
  "\n  You are an AI contract analyzer. Your task is to compare the eligibility criteria listed in a Request for Proposal (RFP) with the details provided in a proposal.\n\n  RFP Content:\n  "
    ++ rfp_content
    ++ "\n\n  Proposal Content:\n  "
    ++ proposal_content
    ++ "\n\n  For each eligibility criterion in the RFP, provide the following:\n\n  Eligibility Criterion: [Insert eligibility criterion from RFP]\n  Eligibility Met (Yes/No): [Yes/No]\n  Reason: [Provide a detailed explanation of how the eligibility criterion is met or not met based on the proposal]\n\n  Please provide your analysis in a clear, structured format.\n  \n"
    ++ format_instructions ++ "\n  "

/-- `genrating_eligbility` (lines 66-86 of `src/main.py`): one completion
request at temperature 0 on the fixed extraction template; the raw textual
response is returned unmodified, with no validation. The chat client is the
`chat` oracle. -/
def genrating_eligbility (chat : LlmRequest → Except Exc String)
    (rfp_text : String) : Except Exc String :=
  chat ⟨0, extractPrompt rfp_text⟩

/-- The parse step of the langchain `JsonOutputParser` (line 103 of
`src/main.py`). The oracle `extractJson` abstracts `parse_json_markdown`:
it yields the JSON value that can be isolated from the raw response text
(handling code fences and partial JSON), or `none` when no structured data
can be isolated. When extraction fails the parser raises
OutputParserException whose message embeds the raw output. When it succeeds
the decoded JSON is returned as plain Python objects: the `pydantic_object`
argument only shapes `get_format_instructions` and is never used to
validate, so no field or enum checking happens here. -/
def json_output_parser_parse (extractJson : String → Option Json)
    (text : String) : Except Exc PyObject :=
  match extractJson text with
  | none => .error (.outputParserException ("Invalid json output: " ++ text) text)
  | some j => .ok (PyObject.json j)

/-- `analyze_eligibility` (lines 89-144 of `src/main.py`): one completion
request at temperature 0 on the comparison template, piped into
`JsonOutputParser`. -/
def analyze_eligibility (chat : LlmRequest → Except Exc String)
    (extractJson : String → Option Json)
    (rfp_content proposal_content : String) : Except Exc PyObject :=
  match chat ⟨0, comparePrompt rfp_content proposal_content⟩ with
  | .error e => .error e
  | .ok text => json_output_parser_parse extractJson text

/-- A FAISS vector index: the (chunk text, embedding vector) pairs it owns.
Embedding vectors are integer-coordinate lists (the embedding service is an
oracle, so the coordinate type only needs an ordered arithmetic). -/
abbrev Index := List (String × List Int)

/-- The persisted index storage: a location string maps to the saved index,
if any (`db.save_local` / `FAISS.load_local`). -/
abbrev Store := String → Option Index

/-- Overwrite-on-build write to index storage (`db.save_local(path)`). -/
def storeWrite (store : Store) (path : String) (idx : Index) : Store :=
  fun p => if p = path then some idx else store p

/-- Modelled from the spec: `FAISS.from_documents` (line 48 of
`src/main.py`), whose implementation is external to this repository. Per
spec section 4.2, build computes one embedding vector per chunk through the
embedding-service oracle and owns the resulting pairs; an embedding failure
propagates. -/
def faiss_from_documents (embed : String → Except Exc (List Int))
    (docs : List String) : Except Exc Index :=
  docs.mapM (fun d => (embed d).map (fun v => (d, v)))

/-- `create_vector_db` (lines 40-50 of `src/main.py`): build the index from
the chunks, persist it at `path` (overwriting), and return the in-memory
index together with the updated storage. -/
def create_vector_db (embed : String → Except Exc (List Int))
    (docs : List String) (path : String) (store : Store) :
    Except Exc (Index × Store) :=
  match faiss_from_documents embed docs with
  | .error e => .error e
  | .ok db => .ok (db, storeWrite store path db)

/-- `load_vector_db` (lines 53-63 of `src/main.py`): reconstruct an index
from a previously built location; a missing location fails (FAISS raises on
a missing ".faiss" file). This function is defined by the source but never
called by the endpoint. -/
def load_vector_db (path : String) (store : Store) : Except Exc Index :=
  match store path with
  | some idx => .ok idx
  | none => .error (.otherError ("could not open " ++ path))

/-- Squared euclidean distance between two embedding vectors. -/
def dist2 (v w : List Int) : Int :=
  ((v.zip w).map (fun p => (p.1 - p.2) * (p.1 - p.2))).sum

/-- Nearest-first ordering on scored chunks: smaller distance first. -/
def byDist (a b : String × Int) : Prop := a.2 ≤ b.2

instance : DecidableRel byDist := fun a b => inferInstanceAs (Decidable (a.2 ≤ b.2))

instance : IsTotal (String × Int) byDist := ⟨fun a b => Int.le_total a.2 b.2⟩

instance : IsTrans (String × Int) byDist := ⟨fun _ _ _ h1 h2 => le_trans h1 h2⟩

/-- Modelled from the spec: FAISS `similarity_search` (lines 163-164 of
`src/main.py`), whose implementation is external to this repository. Per
spec section 4.2, the query text is embedded through the embedding-service
oracle and the k chunks with smallest distance to the query embedding are
returned nearest-first; if the index holds fewer than k chunks all of them
are returned; k defaults to 20 per the spec contract (both call sites pass
k=20 explicitly). An embedding failure propagates. -/
def similarity_search (embed : String → Except Exc (List Int)) (db : Index)
    (query : String) (k : Nat := 20) : Except Exc (List String) :=
  match embed query with
  | .error e => .error e
  | .ok qv =>
      .ok ((List.insertionSort byDist (db.map (fun p => (p.1, dist2 qv p.2)))).take k
        |>.map Prod.fst)

/-- The environment of external collaborators the endpoint runs against:
the three Azure settings read from the process environment (lines 23-25 of
`src/main.py`), the document loading outcomes (`load_document`, which feeds
each uploaded file through PyPDFLoader and the text splitter — both external
libraries — so the chunk lists are supplied as oracle outcomes), the
embedding service, the chat-completion service, and the JSON extraction of
`parse_json_markdown`. -/
structure Env where
  azureKey : Option String
  azureEndpoint : Option String
  azureDeployment : Option String
  loadRfp : Except Exc (List String)
  loadProposal : Except Exc (List String)
  embed : String → Except Exc (List Int)
  chat : LlmRequest → Except Exc String
  extractJson : String → Option Json

/-- Python truthiness of one `os.getenv` result as tested by `all([...])`
on line 150: `None` and the empty string are falsy. -/
def settingTruthy : Option String → Bool
  | none => false
  | some s => !s.isEmpty

/-- The configuration guard of line 150 of `src/main.py`. -/
def configOk (env : Env) : Bool :=
  settingTruthy env.azureKey && settingTruthy env.azureEndpoint &&
    settingTruthy env.azureDeployment

/-- The body of the `try` block of the `analyze` endpoint (lines 153-176 of
`src/main.py`), threading the index storage through the two persisting
builds: load and chunk both documents, build and persist one index per
document at its filename-derived location, retrieve k=20 chunks from each
with the two fixed anchor phrases, space-join each retrieval, run the
extraction call, run the comparison call with its parser, and finally invoke
`.dict()` on the parser output to build the JSONResponse content. The first
error anywhere aborts the rest; the storage reflects the writes made up to
that point. -/
def analyzeTryBody (env : Env) (rfpName propName : String) (store : Store) :
    Except Exc Json × Store :=
  match env.loadRfp with
  | .error e => (.error e, store)
  | .ok rfp_docs =>
    match faiss_from_documents env.embed rfp_docs with
    | .error e => (.error e, store)
    | .ok rfp_db =>
      let store1 := storeWrite store ("vectorstore/RFP/" ++ rfpName) rfp_db
      match env.loadProposal with
      | .error e => (.error e, store1)
      | .ok proposal_docs =>
        match faiss_from_documents env.embed proposal_docs with
        | .error e => (.error e, store1)
        | .ok proposal_db =>
          let store2 := storeWrite store1 ("vectorstore/Proposals/" ++ propName) proposal_db
          match similarity_search env.embed rfp_db "eligibility criteria" 20 with
          | .error e => (.error e, store2)
          | .ok rfp_content =>
            match similarity_search env.embed proposal_db "company background and qualifications" 20 with
            | .error e => (.error e, store2)
            | .ok proposal_content =>
              let rfp_text := String.intercalate " " rfp_content
              let proposal_text := String.intercalate " " proposal_content
              match genrating_eligbility env.chat rfp_text with
              | .error e => (.error e, store2)
              | .ok ref_eligibility =>
                match analyze_eligibility env.chat env.extractJson ref_eligibility proposal_text with
                | .error e => (.error e, store2)
                | .ok analysis =>
                  match analysis.dictMethod with
                  | .error e => (.error e, store2)
                  | .ok content => (.ok content, store2)

/-- The `analyze` endpoint (lines 148-182 of `src/main.py`): the
configuration guard answers 500 with a fixed detail before any work; then
the `try` body runs, a success becomes a 200 JSONResponse, and any raised
exception is answered through the `except` ladder. -/
def analyzeEndpoint (env : Env) (rfpName propName : String) (store : Store) :
    HttpResult × Store :=
  if configOk env then
    match analyzeTryBody env rfpName propName store with
    | (.ok content, store2) => (.ok 200 content, store2)
    | (.error e, store2) => (handleException e, store2)
  else
    (.httpError 500 "Azure OpenAI settings are not properly configured", store)

/-- Recursion core of the chunker: while more than `maxSize` characters
remain, emit the next `maxSize`-character piece and advance by
`step = maxSize - overlap` characters, so consecutive pieces share `overlap`
characters. The fuel argument bounds the recursion structurally; `chunk`
passes the text length, which the lemmas below show is always enough when
`step` is positive. -/
def chunkGo (maxSize step : Nat) : Nat → List Char → List (List Char)
  | 0, t => [t]
  | fuel + 1, t =>
    if t.length ≤ maxSize ∨ step = 0 then [t]
    else t.take maxSize :: chunkGo maxSize step fuel (t.drop step)

/-- Modelled from the spec: the Chunker contract of section 4.1
(`chunk(document_text, max_size, overlap)`). The concrete splitter invoked
on lines 36-37 of `src/main.py` (`RecursiveCharacterTextSplitter` with
`chunk_size=1024, chunk_overlap=0`) is external to this repository, so the
Chunker is modelled from the spec words: empty text fails with InputError,
and otherwise the text is cut into pieces of at most `max_size` characters
with `overlap` characters shared between consecutive pieces (the hard
character cuts the spec names as the fallback policy). -/
def chunk (text : List Char) (maxSize overlap : Nat) :
    Except ErrKind (List (List Char)) :=
  if text.isEmpty then .error .inputError
  else .ok (chunkGo maxSize (maxSize - overlap) text.length text)

/-- Concatenation of a chunk sequence with the declared overlap between
consecutive chunks removed: every chunk after the first drops its first
`overlap` characters. -/
def reassemble (overlap : Nat) : List (List Char) → List Char
  | [] => []
  | c :: cs => c ++ (cs.map (List.drop overlap)).flatten

/-- Spec-side schema predicate, written from the spec words of sections 3
and 4.4 for stating the strictness claim: a verdict object must carry
exactly the three required fields, with the met field (named
`eligibility_met` by the pydantic schema of lines 91-98) a string equal to
Yes or No. -/
def isStrField : Option Json → Bool
  | some (Json.str _) => true
  | _ => false

/-- Spec-side check that an optional field is a Yes/No string. -/
def isYesNoField : Option Json → Bool
  | some (Json.str s) => s == "Yes" || s == "No"
  | _ => false

/-- Spec-side schema predicate for one EligibilityVerdict object. -/
def conformsCriterion : Json → Bool
  | Json.obj fields =>
      fields.length == 3 &&
      isStrField (fields.lookup "criterion") &&
      isYesNoField (fields.lookup "eligibility_met") &&
      isStrField (fields.lookup "reason")
  | _ => false

/-- Spec-side schema predicate for a whole ComparisonResult: the wrapper
object of the pydantic schema (lines 100-101) holding the sequence of
conforming verdicts. -/
def conformsResult : Json → Bool
  | Json.obj [(key, Json.arr verdicts)] =>
      key == "eligibility_criteria" && verdicts.all conformsCriterion
  | _ => false

/-- A concrete environment in which every pipeline step succeeds: all three
settings are present, both documents load, the embedding service answers a
constant vector, the chat service answers a fixed text, and JSON extraction
isolates an (empty) JSON object from it. -/
def demoEnv : Env where
  azureKey := some "key"
  azureEndpoint := some "endpoint"
  azureDeployment := some "deployment"
  loadRfp := Except.ok ["rfp text"]
  loadProposal := Except.ok ["proposal text"]
  embed := fun _ => Except.ok [0]
  chat := fun _ => Except.ok "model answer"
  extractJson := fun _ => some (Json.obj [])

/-- A non-conforming comparator response: the met field carries the token
Maybe, outside the Yes/No enumeration the schema requires. -/
def nonconformingResponse : Json :=
  Json.obj [("eligibility_criteria", Json.arr [Json.obj
    [("criterion", Json.str "Bidder must have 5 years of experience"),
     ("eligibility_met", Json.str "Maybe"),
     ("reason", Json.str "unclear from the proposal")]])]

/-- Every chunk the recursion core emits has at most `maxSize` characters,
provided the step is positive and the fuel covers the text length. -/
theorem chunkGo_chunk_length_le (m s : Nat) (hs : 0 < s) :
    ∀ (fuel : Nat) (t : List Char), t.length ≤ fuel →
      ∀ c ∈ chunkGo m s fuel t, c.length ≤ m := by
  intro fuel
  induction fuel with
  | zero =>
    intro t ht c hc
    have hnil : t = [] := List.eq_nil_of_length_eq_zero (Nat.le_zero.mp ht)
    subst hnil
    simp [chunkGo] at hc
    subst hc
    simp
  | succ fuel ih =>
    intro t ht c hc
    by_cases hcond : t.length ≤ m ∨ s = 0
    · rw [chunkGo, if_pos hcond] at hc
      simp at hc
      subst hc
      rcases hcond with h | h
      · exact h
      · omega
    · rw [chunkGo, if_neg hcond] at hc
      rcases List.mem_cons.mp hc with rfl | hc2
      · simp [List.length_take]
      · exact ih (t.drop s) (by simp [List.length_drop]; omega) c hc2

/-- Dropping the overlap `m - s` from every chunk the recursion core emits
and concatenating gives back the text with its first `m - s` characters
removed. -/
theorem chunkGo_flatten_drop (m s : Nat) (hs : 0 < s) (hsm : s ≤ m) :
    ∀ (fuel : Nat) (t : List Char), t.length ≤ fuel →
      ((chunkGo m s fuel t).map (List.drop (m - s))).flatten = List.drop (m - s) t := by
  intro fuel
  induction fuel with
  | zero =>
    intro t ht
    have hnil : t = [] := List.eq_nil_of_length_eq_zero (Nat.le_zero.mp ht)
    subst hnil
    simp [chunkGo]
  | succ fuel ih =>
    intro t ht
    by_cases hcond : t.length ≤ m ∨ s = 0
    · rw [chunkGo, if_pos hcond]
      simp
    · rw [chunkGo, if_neg hcond]
      rw [List.map_cons, List.flatten_cons,
        ih (t.drop s) (by simp [List.length_drop]; omega)]
      have h1 : List.drop (m - s) (List.take m t) = List.take s (List.drop (m - s) t) := by
        rw [List.drop_take m (m - s) t, Nat.sub_sub_self hsm]
      have h2 : List.drop (m - s) (List.drop s t) = List.drop s (List.drop (m - s) t) := by
        rw [List.drop_drop, List.drop_drop]
        congr 1
        omega
      rw [h1, h2, List.take_append_drop]

/-- C4. For every chunking input text and parameters with the spec
invariant overlap < max_size, every chunk the Chunker produces has length
at most max_size, and concatenating the chunks in order while removing the
declared overlap between consecutive chunks reconstructs the input text
exactly. -/
theorem chunk_bounds_and_reassembly (text : List Char) (maxSize overlap : Nat)
    (ho : overlap < maxSize) (cs : List (List Char))
    (hcs : chunk text maxSize overlap = Except.ok cs) :
    (∀ c ∈ cs, c.length ≤ maxSize) ∧ reassemble overlap cs = text := by
  by_cases hemp : text.isEmpty
  · simp [chunk, hemp] at hcs
  · rw [chunk, if_neg (by simp_all)] at hcs
    have hcs2 : chunkGo maxSize (maxSize - overlap) text.length text = cs :=
      by injection hcs
    subst hcs2
    refine ⟨chunkGo_chunk_length_le maxSize (maxSize - overlap) (by omega)
      text.length text (le_refl _), ?_⟩
    obtain ⟨k, hk⟩ : ∃ k, text.length = k + 1 := by
      cases text with
      | nil => simp at hemp
      | cons a t => exact ⟨t.length, rfl⟩
    rw [hk]
    by_cases hcond : text.length ≤ maxSize ∨ maxSize - overlap = 0
    · rw [chunkGo, if_pos hcond]
      simp [reassemble]
    · rw [chunkGo, if_neg hcond]
      rw [reassemble]
      set s := maxSize - overlap with hs
      rw [show overlap = maxSize - s from by omega]
      rw [chunkGo_flatten_drop maxSize s (by omega) (by omega) k
        (text.drop s) (by simp [List.length_drop]; omega)]
      rw [List.drop_drop]
      rw [show s + (maxSize - s) = maxSize from by omega]
      exact List.take_append_drop maxSize text

/-- C4 witness: a concrete run with max_size 2 and overlap 1. -/
theorem chunk_bounds_and_reassembly_witness :
    reassemble 1 [['a','b'],['b','c'],['c','d'],['d','e']] = ['a','b','c','d','e'] :=
  (chunk_bounds_and_reassembly ['a','b','c','d','e'] 2 1 (by decide)
    [['a','b'],['b','c'],['c','d'],['d','e']] rfl).2

/-- C5. A call to the Chunker on empty document text fails with InputError
for every parameter choice; no empty or trivial chunk sequence is
returned. -/
theorem chunk_empty_input_error :
    ∀ (maxSize overlap : Nat), chunk [] maxSize overlap = Except.error ErrKind.inputError := by
  intro maxSize overlap
  rfl

/-- C9. The Chunker is a pure function of the document text and the
parameters: two calls on identical text with identical parameters yield
byte-identical chunk sequences. -/
theorem chunk_deterministic (t1 t2 : List Char) (m1 m2 o1 o2 : Nat)
    (ht : t1 = t2) (hm : m1 = m2) (ho : o1 = o2) :
    chunk t1 m1 o1 = chunk t2 m2 o2 := by
  subst ht
  subst hm
  subst ho
  rfl

/-- C9 witness: two identical concrete calls. -/
theorem chunk_deterministic_witness :
    chunk ['r','f','p'] 2 1 = chunk ['r','f','p'] 2 1 :=
  chunk_deterministic ['r','f','p'] ['r','f','p'] 2 2 1 1 rfl rfl rfl

/-- C8. The extraction stage space-joins the retrieved chunks in retrieval
order into the fixed instruction template, issues exactly that one
completion request at temperature 0, and returns whatever the completion
service answers unmodified: `genrating_eligbility` on the joined retrieval
is literally one invocation of the chat oracle at temperature 0 on the
instantiated template. -/
theorem extract_single_call_raw_output (chat : LlmRequest → Except Exc String)
    (retrieved : List String) :
    genrating_eligbility chat (String.intercalate " " retrieved) =
      chat ⟨0, extractPrompt (String.intercalate " " retrieved)⟩ := rfl

/-- C1. The comparator does not validate the schema: a model response whose
met field is Maybe (hence non-conforming under the spec schema predicate)
is parsed by `JsonOutputParser` and returned as a plain decoded value; no
SchemaValidationError is raised. The chat oracle answers a raw text from
which `nonconformingResponse` is the extractable JSON. -/
theorem comparator_accepts_nonconforming_met :
    conformsResult nonconformingResponse = false ∧
    analyze_eligibility (fun _ => Except.ok "raw model response")
      (fun _ => some nonconformingResponse) "criteria text" "proposal text" =
      Except.ok (PyObject.json nonconformingResponse) := ⟨rfl, rfl⟩

/-- C3 counterexample: an input error (unparseable document) and a
dependency error (failed service call) with the same underlying message are
surfaced as literally the same generic 500 response, although the two kinds
are distinct; the caller cannot distinguish them. -/
theorem input_dependency_errors_collapse :
    surfacedResponse ErrKind.inputError "connection reset" =
      surfacedResponse ErrKind.dependencyError "connection reset" ∧
    ErrKind.inputError ≠ ErrKind.dependencyError := ⟨rfl, by decide⟩

/-- Helper for C3: the fixed configuration detail string never coincides
with the generic catch-all detail, whatever the wrapped message. -/
theorem config_detail_ne_generic (m : String) :
    ("Azure OpenAI settings are not properly configured" : String) ≠
      "An unexpected error occurred: " ++ m := by
  intro h
  have hchars : (['A','z'] : List Char) = ['A','n'] :=
    congrArg (fun s : String => s.data.take 2) h
  exact absurd hchars (by decide)

/-- C3 amended. Config errors (fixed 500 detail) and schema-validation
errors (400 with the parser message) surface distinguishably from each
other and from the generic catch-all; but input errors, dependency errors
and not-found errors (the plain RuntimeError of a missing index location)
are all collapsed into the identical generic 500 response and are not
distinguishable from one another. -/
theorem error_surfacing_collapses_input_dependency (m m' : String) :
    surfacedResponse ErrKind.inputError m = surfacedResponse ErrKind.dependencyError m ∧
    surfacedResponse ErrKind.notFoundError m = surfacedResponse ErrKind.inputError m ∧
    surfacedResponse ErrKind.configError m ≠ surfacedResponse ErrKind.inputError m' ∧
    surfacedResponse ErrKind.schemaValidationError m ≠ surfacedResponse ErrKind.inputError m' ∧
    surfacedResponse ErrKind.configError m ≠ surfacedResponse ErrKind.schemaValidationError m' := by
  refine ⟨rfl, rfl, ?_, ?_, ?_⟩
  · intro h
    have hd : ("Azure OpenAI settings are not properly configured" : String) =
        "An unexpected error occurred: " ++ m' := by
      simpa [surfacedResponse, handleException, Exc.message] using h
    exact config_detail_ne_generic m' hd
  · intro h
    simp [surfacedResponse, handleException, Exc.message] at h
  · intro h
    simp [surfacedResponse, handleException] at h

/-- C6. For every index and query whose embedding succeeds, the query
result is the k-prefix projection of a nearest-first ordering of the whole
scored index; it holds min(k, index size) chunks, and when the index has at
most k chunks it is a permutation of exactly the full index content; k
defaults to 20. -/
theorem query_topk_nearest_first (embed : String → Except Exc (List Int))
    (db : Index) (q : String) (k : Nat) (qv : List Int)
    (h : embed q = Except.ok qv) :
    ∃ ranked res,
      similarity_search embed db q k = Except.ok res ∧
      res = (ranked.take k).map Prod.fst ∧
      List.Sorted byDist ranked ∧
      List.Perm ranked (db.map (fun p => (p.1, dist2 qv p.2))) ∧
      res.length = min k db.length ∧
      (db.length ≤ k → List.Perm res (db.map Prod.fst)) ∧
      similarity_search embed db q = similarity_search embed db q 20 := by
  have hlen : (List.insertionSort byDist (db.map (fun p => (p.1, dist2 qv p.2)))).length
      = db.length := by
    rw [(List.perm_insertionSort byDist _).length_eq, List.length_map]
  refine ⟨List.insertionSort byDist (db.map (fun p => (p.1, dist2 qv p.2))),
    ((List.insertionSort byDist (db.map (fun p => (p.1, dist2 qv p.2)))).take k).map Prod.fst,
    ?_, rfl, List.sorted_insertionSort byDist _, List.perm_insertionSort byDist _, ?_, ?_, rfl⟩
  · simp [similarity_search, h]
  · simp [List.length_take, hlen]
  · intro hk
    rw [List.take_of_length_le (by rw [hlen]; exact hk)]
    have hperm := (List.perm_insertionSort byDist
      (db.map (fun p => (p.1, dist2 qv p.2)))).map Prod.fst
    have hmap : (db.map (fun p => (p.1, dist2 qv p.2))).map Prod.fst = db.map Prod.fst := by
      rw [List.map_map]
      rfl
    rw [hmap] at hperm
    exact hperm

/-- C6 witness: a two-chunk index queried with k = 1 under a length-based
embedding oracle. -/
theorem query_topk_nearest_first_witness :
    ∃ ranked res,
      similarity_search (fun s => Except.ok [(s.length : Int)])
          [("aa", [2]), ("b", [1])] "" 1 = Except.ok res ∧
      res = (ranked.take 1).map Prod.fst ∧
      List.Sorted byDist ranked ∧
      List.Perm ranked (([("aa", [2]), ("b", [1])] : Index).map
        (fun p => (p.1, dist2 [0] p.2))) ∧
      res.length = min 1 ([("aa", [2]), ("b", [1])] : Index).length ∧
      (([("aa", [2]), ("b", [1])] : Index).length ≤ 1 →
        List.Perm res (([("aa", [2]), ("b", [1])] : Index).map Prod.fst)) ∧
      similarity_search (fun s => Except.ok [(s.length : Int)])
          [("aa", [2]), ("b", [1])] "" =
        similarity_search (fun s => Except.ok [(s.length : Int)])
          [("aa", [2]), ("b", [1])] "" 20 :=
  query_topk_nearest_first (fun s => Except.ok [(s.length : Int)])
    [("aa", [2]), ("b", [1])] "" 1 [0] rfl

/-- Helper for C10: the data result of the try body never reads the index
storage, so it is the same for any two prior storage states. -/
theorem analyzeTryBody_result_store_independent (env : Env) (n p : String)
    (s1 s2 : Store) :
    (analyzeTryBody env n p s1).1 = (analyzeTryBody env n p s2).1 := by
  unfold analyzeTryBody
  cases env.loadRfp with
  | error e => rfl
  | ok rfp_docs =>
    dsimp only
    cases faiss_from_documents env.embed rfp_docs with
    | error e => rfl
    | ok rfp_db =>
      dsimp only
      cases env.loadProposal with
      | error e => rfl
      | ok proposal_docs =>
        dsimp only
        cases faiss_from_documents env.embed proposal_docs with
        | error e => rfl
        | ok proposal_db =>
          dsimp only
          cases similarity_search env.embed rfp_db "eligibility criteria" 20 with
          | error e => rfl
          | ok rfp_content =>
            dsimp only
            cases similarity_search env.embed proposal_db
                "company background and qualifications" 20 with
            | error e => rfl
            | ok proposal_content =>
              dsimp only
              cases genrating_eligbility env.chat (String.intercalate " " rfp_content) with
              | error e => rfl
              | ok ref_eligibility =>
                dsimp only
                cases analyze_eligibility env.chat env.extractJson ref_eligibility
                    (String.intercalate " " proposal_content) with
                | error e => rfl
                | ok analysis =>
                  dsimp only
                  cases analysis.dictMethod with
                  | error e => rfl
                  | ok content => rfl

/-- C10. The HTTP outcome of the endpoint is independent of whatever index
content was previously persisted at the derived storage locations: the
pipeline builds fresh in-memory indexes from the current request, never
invokes the load operation, and only writes the storage, so two runs that
differ only in pre-existing storage produce the same response. -/
theorem analyze_result_independent_of_store (env : Env) (n p : String)
    (s1 s2 : Store) :
    (analyzeEndpoint env n p s1).1 = (analyzeEndpoint env n p s2).1 := by
  unfold analyzeEndpoint
  by_cases hc : configOk env = true
  · simp only [hc, if_true]
    have h := analyzeTryBody_result_store_independent env n p s1 s2
    rcases h1 : analyzeTryBody env n p s1 with ⟨r1, st1⟩
    rcases h2 : analyzeTryBody env n p s2 with ⟨r2, st2⟩
    rw [h1, h2] at h
    simp only at h
    subst h
    cases r1 <;> rfl
  · simp only [Bool.not_eq_true] at hc
    simp only [hc, Bool.false_eq_true, if_false]

/-- Helper for C7: the exception ladder never answers success. -/
theorem handleException_ne_ok (e : Exc) (st : Nat) (c : Json) :
    handleException e ≠ HttpResult.ok st c := by
  cases e <;> simp [handleException]

/-- C7. Every request either fails the configuration guard with its fixed
typed 500, or its try body fails at some step and the whole request is
answered by exactly the exception ladder on that single error (never a
success response, so no partial result), or every step succeeds and the
complete comparison content is answered with a 200. -/
theorem analyze_all_or_nothing (env : Env) (n p : String) (s : Store) :
    (configOk env = false ∧
      (analyzeEndpoint env n p s).1 =
        HttpResult.httpError 500 "Azure OpenAI settings are not properly configured") ∨
    (∃ e, (analyzeTryBody env n p s).1 = Except.error e ∧
      (analyzeEndpoint env n p s).1 = handleException e ∧
      ∀ st c, handleException e ≠ HttpResult.ok st c) ∨
    (∃ content, (analyzeTryBody env n p s).1 = Except.ok content ∧
      (analyzeEndpoint env n p s).1 = HttpResult.ok 200 content) := by
  by_cases hc : configOk env = true
  · rcases hb : analyzeTryBody env n p s with ⟨r, st⟩
    cases r with
    | error e =>
      right; left
      refine ⟨e, rfl, ?_, fun st c => handleException_ne_ok e st c⟩
      simp [analyzeEndpoint, hc, hb]
    | ok content =>
      right; right
      refine ⟨content, rfl, ?_⟩
      simp [analyzeEndpoint, hc, hb]
  · left
    simp only [Bool.not_eq_true] at hc
    refine ⟨hc, ?_⟩
    simp [analyzeEndpoint, hc]

/-- C2. Whenever every pipeline step succeeds — both documents load, both
index builds and both retrievals succeed, both completion calls answer, and
the comparator response yields extractable JSON — the endpoint still answers
a 500: the parser output is a plain decoded value, the `.dict()` call on it
raises AttributeError, and the catch-all wraps it. No request ever receives
the parsed comparison result. -/
theorem analyze_dict_call_yields_500 (env : Env) (n p : String) (s : Store)
    (rdocs pdocs : List String) (ridx pidx : Index)
    (rcs pcs : List String) (elig resp : String) (j : Json)
    (hc : configOk env = true)
    (h1 : env.loadRfp = Except.ok rdocs)
    (h2 : faiss_from_documents env.embed rdocs = Except.ok ridx)
    (h3 : env.loadProposal = Except.ok pdocs)
    (h4 : faiss_from_documents env.embed pdocs = Except.ok pidx)
    (h5 : similarity_search env.embed ridx "eligibility criteria" 20 = Except.ok rcs)
    (h6 : similarity_search env.embed pidx "company background and qualifications" 20
      = Except.ok pcs)
    (h7 : env.chat ⟨0, extractPrompt (String.intercalate " " rcs)⟩ = Except.ok elig)
    (h8 : env.chat ⟨0, comparePrompt elig (String.intercalate " " pcs)⟩ = Except.ok resp)
    (h9 : env.extractJson resp = some j) :
    (analyzeEndpoint env n p s).1 =
      HttpResult.httpError 500
        ("An unexpected error occurred: " ++
          (j.pyTypeName ++ " object has no attribute dict")) := by
  simp [analyzeEndpoint, hc, analyzeTryBody, genrating_eligbility, analyze_eligibility,
    json_output_parser_parse, PyObject.dictMethod, handleException, Exc.message,
    h1, h2, h3, h4, h5, h6, h7, h8, h9]

/-- C2 witness: the concrete all-steps-succeed environment still gets the
AttributeError 500. -/
theorem analyze_dict_call_yields_500_witness :
    (analyzeEndpoint demoEnv "rfp.pdf" "proposal.pdf" (fun _ => none)).1 =
      HttpResult.httpError 500
        ("An unexpected error occurred: " ++
          (Json.pyTypeName (Json.obj []) ++ " object has no attribute dict")) :=
  analyze_dict_call_yields_500 demoEnv "rfp.pdf" "proposal.pdf" (fun _ => none)
    ["rfp text"] ["proposal text"] [("rfp text", [0])] [("proposal text", [0])]
    ["rfp text"] ["proposal text"] "model answer" "model answer" (Json.obj [])
    rfl rfl rfl rfl rfl rfl rfl rfl rfl rfl
